import Mathlib

/-!
Shallow embedding of the `davy` sandbox launcher (src/main.rs) and proofs
about its launch-configuration logic: build-definition resolution, SSH key
aggregation, mount planning, bootstrap command wrapping, docker-socket
resolution, run-invocation assembly and exit-status propagation.

Host-filesystem and host-environment effects are modelled by an explicit
`Host` record (read-only stat results, environment variables, cwd, ids),
and external child processes by oracle parameters (e.g. whether the image
exists) or by the argument vectors the program would hand to them.
Fallible Rust functions returning `anyhow::Result` become `Except String`.
-/

deriving instance DecidableEq for Except

namespace Davy

/-- Result of a read-only stat of a host path: a directory, a unix domain
socket, some other existing entry (regular file etc.), or nothing. -/
inductive FsType where
  | dir
  | sock
  | file
  | missing
deriving DecidableEq

/-- The read-only host world consulted by the launcher: stat results,
environment variables, current directory, user/group ids, per-file owning
group, path decomposition and the current local timestamp. -/
structure Host where
  fs : String → FsType
  env : String → Option String
  cwd : String
  uid : Nat
  gid : Nat
  fileGid : String → Nat
  fileName : String → Option String
  parent : String → Option String
  now : String
  userHome : Option String

/-- Model of `Path::join` for the relative components used by the program. -/
def pjoin (base : String) (rel : String) : String := base ++ "/" ++ rel

/-- Model of `home_dir` from src/main.rs: `$HOME` if set, else the passwd entry of
the current user, else an error. -/
def home_dir (h : Host) : Except String String :=
  match h.env "HOME" with
  | some home => .ok home
  | none =>
    match h.userHome with
    | some home => .ok home
    | none => .error "HOME is not set and current user home directory could not be resolved"

/-- Model of `push_env` from src/main.rs: append a `-e KEY=VALUE` pair. -/
def push_env (args : List String) (value : String) : List String :=
  args ++ ["-e", value]

/-- Model of `push_volume` from src/main.rs: append a `-v SRC:DST` pair. -/
def push_volume (args : List String) (volume : String) : List String :=
  args ++ ["-v", volume]

/-- The `CLAUDE_LINK_SCRIPT` constant from src/main.rs. -/
def CLAUDE_LINK_SCRIPT : String :=
  String.intercalate "\n"
    [ "set -e"
    , "mkdir -p /home/dev/.claude-auth/.claude"
    , "touch /home/dev/.claude-auth/.claude.json"
    , ""
    , "if [ -e /home/dev/.claude ] && [ ! -L /home/dev/.claude ]; then"
    , "  rm -rf /home/dev/.claude"
    , "fi"
    , "if [ -e /home/dev/.claude.json ] && [ ! -L /home/dev/.claude.json ]; then"
    , "  rm -f /home/dev/.claude.json"
    , "fi"
    , ""
    , "ln -sfn /home/dev/.claude-auth/.claude /home/dev/.claude"
    , "ln -sfn /home/dev/.claude-auth/.claude.json /home/dev/.claude.json"
    , "export CLAUDE_CONFIG_DIR=/home/dev/.claude"
    , ""
    , "exec \"$@\"" ]

/-- The `SSH_BOOTSTRAP_SCRIPT` constant from src/main.rs. -/
def SSH_BOOTSTRAP_SCRIPT : String :=
  String.intercalate "\n"
    [ "set -e"
    , "if ! command -v sshd >/dev/null 2>&1; then"
    , "  echo \"davy: sshd is not installed in image. Rebuild with the latest rocky.Dockerfile.\" >&2"
    , "  exit 1"
    , "fi"
    , ""
    , "if ! command -v ps >/dev/null 2>&1; then"
    , "  echo \"davy: 'ps' is required for remote IDE SSH helpers (VS Code and derivatives).\" >&2"
    , "  echo \"davy: rebuild with the latest rocky.Dockerfile.\" >&2"
    , "  exit 1"
    , "fi"
    , ""
    , "if ! command -v flock >/dev/null 2>&1; then"
    , "  echo \"davy: 'flock' is required for remote IDE SSH helpers (VS Code and derivatives).\" >&2"
    , "  echo \"davy: rebuild with the latest rocky.Dockerfile.\" >&2"
    , "  exit 1"
    , "fi"
    , ""
    , "if [ -z \"$\x7bDAVY_SSH_AUTH_KEYS_B64:-\x7d\" ]; then"
    , "  echo \"davy: DAVY_SSH_AUTH_KEYS_B64 is missing.\" >&2"
    , "  exit 1"
    , "fi"
    , ""
    , "mkdir -p /home/dev/.ssh"
    , "chmod 700 /home/dev/.ssh"
    , "if ! printf \"%s\" \"$DAVY_SSH_AUTH_KEYS_B64\" | base64 -d >/home/dev/.ssh/authorized_keys 2>/dev/null; then"
    , "  printf \"%s\" \"$DAVY_SSH_AUTH_KEYS_B64\" | base64 --decode >/home/dev/.ssh/authorized_keys"
    , "fi"
    , "if [ ! -s /home/dev/.ssh/authorized_keys ]; then"
    , "  echo \"davy: decoded authorized_keys is empty.\" >&2"
    , "  exit 1"
    , "fi"
    , "chmod 600 /home/dev/.ssh/authorized_keys"
    , ""
    , "sudo mkdir -p /run/sshd"
    , "if ! ls /etc/ssh/ssh_host_*_key >/dev/null 2>&1; then"
    , "  sudo ssh-keygen -A >/dev/null"
    , "fi"
    , ""
    , "sudo /usr/sbin/sshd \\"
    , "  -o PermitRootLogin=no \\"
    , "  -o PasswordAuthentication=no \\"
    , "  -o KbdInteractiveAuthentication=no \\"
    , "  -o ChallengeResponseAuthentication=no \\"
    , "  -o PubkeyAuthentication=yes \\"
    , "  -o AuthorizedKeysFile=.ssh/authorized_keys \\"
    , "  -o PidFile=/tmp/davy-sshd.pid"
    , ""
    , "exec \"$@\"" ]

/-- Model of `wrap_bash_script` from src/main.rs. -/
def wrap_bash_script (script : String) (original_cmd : List String) : List String :=
  ["bash", "-lc", script, "--"] ++ original_cmd

/-- The command-vector mutation performed by `run_container` (src/main.rs
lines 280-289): default to `bash`, then wrap with the credential-symlink
prelude when Claude auth is enabled, then wrap with the SSH bootstrap
prelude when SSH exposure is enabled. -/
def final_cmd (with_claude_auth : Bool) (expose_ssh : Option Nat) (cmd : List String) : List String :=
  let cmd := if cmd.isEmpty then ["bash"] else cmd
  let cmd := if with_claude_auth then wrap_bash_script CLAUDE_LINK_SCRIPT cmd else cmd
  if expose_ssh.isSome then wrap_bash_script SSH_BOOTSTRAP_SCRIPT cmd else cmd

/-- Model of `resolve_dockerfile` from src/main.rs: explicit path wins; otherwise
the cwd pair (when `--local-dockerfile`), otherwise the config-dir pair;
failure names both candidates of the consulted pair. -/
def resolve_dockerfile (h : Host) (from_cli : Option String) (localFlag : Bool) : Except String String :=
  match from_cli with
  | some path => .ok path
  | none =>
    if localFlag then
      let rocky := pjoin h.cwd "rocky.Dockerfile"
      if h.fs rocky = .file then .ok rocky
      else
        let debian := pjoin h.cwd "debian.Dockerfile"
        if h.fs debian = .file then .ok debian
        else
          .error ("no Dockerfile found in current directory (looked for " ++ rocky ++ " and " ++ debian ++ ")")
    else
      match home_dir h with
      | .error e => .error e
      | .ok home =>
        let config_dir := pjoin home ".config/davy"
        let rocky := pjoin config_dir "rocky.Dockerfile"
        if h.fs rocky = .file then .ok rocky
        else
          let debian := pjoin config_dir "debian.Dockerfile"
          if h.fs debian = .file then .ok debian
          else
            .error ("no Dockerfile found (looked for " ++ rocky ++ " and " ++ debian ++ "); use --dockerfile, --local-dockerfile, or DAVY_DOCKERFILE")

/-- Model of `default_container_name` from src/main.rs. -/
def default_container_name (h : Host) (project_dir : String) : String :=
  let base := (((h.fileName project_dir).filter (fun s => !s.isEmpty)).getD "project")
  "davy-" ++ base ++ "-" ++ h.now

/-- Model of `add_bind_mount` from src/main.rs. Returns the extended argument
vector, whether the mount was added, and the warning emitted (if any). -/
def add_bind_mount (fs : String → FsType) (args : List String) (source : String)
    (target : String) (label : String) (allow_missing : Bool) :
    Except String (List String × Bool × Option String) :=
  match fs source with
  | .dir => .ok (push_volume args (source ++ ":" ++ target), true, none)
  | .missing =>
    if allow_missing then
      .ok (args, false,
        some ("davy: warning: " ++ label ++ " mount source not found at " ++ source ++ "; skipping."))
    else .error (label ++ " mount source not found: " ++ source)
  | _ => .error (label ++ " mount source is not a directory: " ++ source)

/-- Model of `parse_unix_socket_from_docker_host` from src/main.rs: strip a
`unix://` scheme and keep the remainder only when non-empty. -/
def parse_unix_socket_from_docker_host (docker_host : String) : Option String :=
  if "unix://".toList.isPrefixOf docker_host.toList then
    let path := String.mk (docker_host.toList.drop 7)
    if path.isEmpty then none else some path
  else none

/-- The candidate selection of `resolve_docker_socket_path` (the `let
socket = ...` chain in src/main.rs): the override path if supplied, else a
unix socket extracted from `DOCKER_HOST`, failing when `DOCKER_HOST` is
set but not a unix socket URL, else the default path. -/
def docker_socket_candidate (h : Host) (from_cli : Option String) : Except String String :=
  match from_cli with
  | some path => .ok path
  | none =>
    match h.env "DOCKER_HOST" with
    | some dh =>
      match parse_unix_socket_from_docker_host dh with
      | some path => .ok path
      | none =>
        .error ("DOCKER_HOST is set to '" ++ dh ++
          "', but --docker needs a local unix socket. Set --docker-sock or DAVY_DOCKER_SOCK.")
    | none => .ok "/var/run/docker.sock"

/-- Model of `resolve_docker_socket_path` from src/main.rs: pick the candidate
path, then require it to exist and to be a unix domain socket. -/
def resolve_docker_socket_path (h : Host) (from_cli : Option String) : Except String String :=
  match docker_socket_candidate h from_cli with
  | .error e => .error e
  | .ok socket =>
    match h.fs socket with
    | .missing => .error ("docker socket not found: " ++ socket)
    | .sock => .ok socket
    | _ => .error ("docker socket path is not a unix socket: " ++ socket)

/-- Model of `docker_sock_gid` from src/main.rs: the owning group of the socket,
read from metadata (fails only if the path vanished). -/
def docker_sock_gid (h : Host) (path : Option String) : Except String (Option Nat) :=
  match path with
  | none => .ok none
  | some p =>
    if h.fs p = .missing then
      .error ("failed to read metadata for docker socket at " ++ p)
    else .ok (some (h.fileGid p))

/-- The parsed CLI options (`RunArgs` in src/main.rs). -/
structure RunArgs where
  project_dir : Option String
  name : Option String
  with_docker_sock : Bool
  docker_sock : Option String
  rebuild : Bool
  no_build : Bool
  keep : Bool
  expose_ssh : Option Nat
  extra_env : List String
  pass_env : List String
  with_pi_auth : Bool
  with_codex_auth : Bool
  with_gemini_auth : Bool
  with_claude_auth : Bool
  auth_all : Bool
  image : String
  dockerfile : Option String
  local_dockerfile : Bool
  extra_docker_args : List String
  cmd : List String
deriving DecidableEq

/-- The resolved launch plan (`RuntimeSettings` in src/main.rs). -/
structure RuntimeSettings where
  project_dir : String
  dockerfile : String
  context_dir : String
  image : String
  name : String
  host_uid : Nat
  host_gid : Nat
  keep : Bool
  rebuild : Bool
  no_build : Bool
  docker_sock : Option String
  docker_sock_gid : Option Nat
  expose_ssh : Option Nat
  with_claude_auth : Bool
  claude_auth_volume : String
  extra_docker_args : List String
  extra_env_args : List String
  cmd : List String
deriving DecidableEq

/-- The environment-directive assembly inside `build_runtime_settings`
(src/main.rs lines 356-363): explicit `KEY=VALUE` entries first, then each
forwarded key bound to its host value or the empty string. -/
def build_env_args (env : String → Option String) (extra_env : List String)
    (pass_env : List String) : List String :=
  let args := extra_env.foldl (fun acc kv => push_env acc kv) []
  pass_env.foldl (fun acc key => push_env acc (key ++ "=" ++ (env key).getD "")) args

/-- Model of `build_runtime_settings` from src/main.rs. Also returns the warnings
printed while planning mounts, in emission order. -/
def build_runtime_settings (h : Host) (args : RunArgs) : Except String (RuntimeSettings × List String) :=
  let host_uid := h.uid
  let host_gid := h.gid
  let project_dir := args.project_dir.getD h.cwd
  if h.fs project_dir = .dir then
    match resolve_dockerfile h args.dockerfile args.local_dockerfile with
    | .error e => .error e
    | .ok dockerfile =>
      if h.fs dockerfile = .file then
        let context_dir := (h.parent dockerfile).getD "."
        let with_pi_auth := args.with_pi_auth || args.auth_all
        let with_codex_auth := args.with_codex_auth || args.auth_all
        let with_gemini_auth := args.with_gemini_auth || args.auth_all
        let with_claude_auth := args.with_claude_auth || args.auth_all
        let allow_missing_auth := args.auth_all
        let claude_auth_volume :=
          (h.env "DAVY_CLAUDE_AUTH_VOLUME").getD ("davy-claude-auth-" ++ toString host_uid ++ "-v1")
        match home_dir h with
        | .error e => .error e
        | .ok home =>
          let extra_env_args := build_env_args h.env args.extra_env args.pass_env
          match (if with_pi_auth then
                   add_bind_mount h.fs args.extra_docker_args (pjoin home ".pi/agent")
                     "/home/dev/.pi/agent" "Pi auth" allow_missing_auth
                 else .ok (args.extra_docker_args, false, none)) with
          | .error e => .error e
          | .ok (eda1, _, w1) =>
            match (if with_codex_auth then
                     add_bind_mount h.fs eda1 (pjoin home ".codex")
                       "/home/dev/.codex" "Codex auth" allow_missing_auth
                   else .ok (eda1, false, none)) with
            | .error e => .error e
            | .ok (eda2, codex_added, w2) =>
              let extra_env_args :=
                if with_codex_auth && codex_added then
                  push_env extra_env_args "CODEX_HOME=/home/dev/.codex"
                else extra_env_args
              match (if with_gemini_auth then
                       add_bind_mount h.fs eda2 (pjoin home ".gemini")
                         "/home/dev/.gemini" "Gemini auth" allow_missing_auth
                     else .ok (eda2, false, none)) with
              | .error e => .error e
              | .ok (eda3, _, w3) =>
                match add_bind_mount h.fs eda3 (pjoin home ".agents/skills")
                    "/home/dev/.agents/skills" "agents skills" true with
                | .error e => .error e
                | .ok (eda4, skills_added, w4) =>
                  let w5 : Option String :=
                    if skills_added then none
                    else some "davy: warning: continuing without host skills mount."
                  match (if args.with_docker_sock then
                           (resolve_docker_socket_path h args.docker_sock).map some
                         else .ok none) with
                  | .error e => .error e
                  | .ok docker_sock =>
                    match docker_sock_gid h docker_sock with
                    | .error e => .error e
                    | .ok sock_gid =>
                      let name := args.name.getD (default_container_name h project_dir)
                      .ok ({ project_dir := project_dir
                           , dockerfile := dockerfile
                           , context_dir := context_dir
                           , image := args.image
                           , name := name
                           , host_uid := host_uid
                           , host_gid := host_gid
                           , keep := args.keep
                           , rebuild := args.rebuild
                           , no_build := args.no_build
                           , docker_sock := docker_sock
                           , docker_sock_gid := sock_gid
                           , expose_ssh := args.expose_ssh
                           , with_claude_auth := with_claude_auth
                           , claude_auth_volume := claude_auth_volume
                           , extra_docker_args := eda4
                           , extra_env_args := extra_env_args
                           , cmd := args.cmd },
                           w1.toList ++ w2.toList ++ w3.toList ++ w4.toList ++ w5.toList)
      else .error ("Dockerfile not found at: " ++ dockerfile)
  else .error ("project dir not found: " ++ project_dir)

/-- Flags passed to `docker_build` when a build is performed. -/
structure BuildFlags where
  pull : Bool
  no_cache : Bool
deriving DecidableEq

/-- Model of `maybe_build_image` from src/main.rs, with the external
`docker_image_exists` probe supplied as an oracle. `some flags` means a
build with those flags is performed, `none` means no build happens. -/
def maybe_build_image (s : RuntimeSettings) (image_exists : Bool) : Except String (Option BuildFlags) :=
  if s.no_build then
    if image_exists then .ok none
    else .error ("image '" ++ s.image ++ "' not found (and --no-build was set)")
  else if s.rebuild then .ok (some ⟨true, true⟩)
  else if !image_exists then .ok (some ⟨false, false⟩)
  else .ok none

/-- One `Command::arg` call: append a single argument. -/
def arg (c : List String) (a : String) : List String := c ++ [a]

/-- One `Command::args` call: append a list of arguments. -/
def argList (c : List String) (xs : List String) : List String := c ++ xs

/-- The argument vector assembled by `docker_run` in src/main.rs, one
`arg`/`argList` call per `.arg`/`.args` in the source. -/
def docker_run_argv (s : RuntimeSettings) : List String :=
  let c := arg (arg ["docker"] "run") "-it"
  let c := if !s.keep then arg c "--rm" else c
  let c := arg (arg (arg (arg (arg (arg c "--name") s.name) "-v")
    (s.project_dir ++ ":/project")) "-w") "/project"
  let c :=
    if s.with_claude_auth then
      arg (arg c "--mount")
        ("type=volume,src=" ++ s.claude_auth_volume ++ ",dst=/home/dev/.claude-auth")
    else c
  let c :=
    match s.docker_sock with
    | some sock =>
      let c := arg (arg c "-v") (sock ++ ":/var/run/docker.sock")
      match s.docker_sock_gid with
      | some gid => arg (arg c "--group-add") (toString gid)
      | none => c
    | none => c
  let c :=
    match s.expose_ssh with
    | some port => arg (arg c "-p") (toString port ++ ":22")
    | none => c
  argList (arg (argList (argList c s.extra_env_args) s.extra_docker_args) s.image) s.cmd

/-- Model of `str::trim` on the character list of a string (whitespace stripped
from both ends), used by the key aggregator. -/
def trim (s : String) : String :=
  String.mk (((s.toList.dropWhile Char.isWhitespace).reverse.dropWhile Char.isWhitespace).reverse)

/-- One iteration of the aggregation loop: `unique.insert(line)` with the
line appended to the output exactly when it is newly inserted. The
`HashSet` is modelled by the first list component (membership only). -/
def insertStep (st : List String × List String) (l : String) : List String × List String :=
  if l ∈ st.1 then st else (l :: st.1, st.2 ++ [l])

/-- Model of `collect_key_lines_from_file` from src/main.rs: trim each line, drop
empty lines, and append each line to `output` the first time it enters the
`unique` set. The file's content is given as its list of lines. -/
def collect_key_lines_from_file (content : List String) (unique : List String)
    (output : List String) : List String × List String :=
  ((content.map trim).filter (fun l => !l.isEmpty)).foldl insertStep (unique, output)

/-- Model of `collect_ssh_authorized_keys` from src/main.rs, over the sequence of
key source files actually read (each as its list of lines). -/
def collect_ssh_authorized_keys (sources : List (List String)) : Except String String :=
  let st := sources.foldl
    (fun st content => collect_key_lines_from_file content st.1 st.2) ([], [])
  if st.2.isEmpty then
    .error "no SSH public keys found. Add ~/.ssh/*.pub or set DAVY_SSH_AUTHORIZED_KEYS_FILE"
  else .ok (String.intercalate "\n" st.2 ++ "\n")

/-- Specification-side view of the aggregator input: all lines of all
sources in reading order, trimmed, with empty lines discarded. -/
def keyLines (sources : List (List String)) : List String :=
  (sources.flatten.map trim).filter (fun l => !l.isEmpty)

/-- First-seen deduplication of `l` appended onto an already-deduplicated
accumulator. -/
def foldDedup (l : List String) (acc : List String) : List String :=
  l.foldl (fun acc x => if x ∈ acc then acc else acc ++ [x]) acc

/-- Specification-side first-seen deduplication: keep each value the first
time it appears, preserving order. -/
def dedupFirstSeen (l : List String) : List String :=
  foldDedup l []

/-- Termination state of a child process (`ExitStatus`). -/
inductive ProcStatus where
  | exited (code : Int)
  | signalled
deriving DecidableEq

/-- Model of `ExitStatus::success`. -/
def status_success : ProcStatus → Bool
  | .exited c => c == 0
  | .signalled => false

/-- Model of `ExitStatus::code`: `none` exactly when terminated by a signal. -/
def status_code : ProcStatus → Option Int
  | .exited c => some c
  | .signalled => none

/-- The tail of `run_container` (src/main.rs lines 312-320) applied to the
result of invoking `docker run`: `.ok none` models returning `Ok(())`,
`.ok (some c)` models `std::process::exit(c)`, `.error` models `bail!`. -/
def finish_run (status : Except String ProcStatus) : Except String (Option Int) :=
  match status with
  | .error e => .error e
  | .ok st =>
    if status_success st then .ok none
    else
      match status_code st with
      | some code => .ok (some code)
      | none => .error "docker run terminated by signal"

/-- Model of `main` from src/main.rs: an `Err` from `try_main` prints the error and
exits with status 1; `Ok` exits 0 (unless `run_container` already exited
with the child's code). -/
def main_exit_code (r : Except String (Option Int)) : Int :=
  match r with
  | .error _ => 1
  | .ok none => 0
  | .ok (some c) => c

/-- The process exit code as a function of how far the launch got:
`.error e` is any internal failure (including a failed `docker run`
invocation), `.ok st` is the launched child's termination status. -/
def program_exit (pre : Except String ProcStatus) : Int :=
  main_exit_code (finish_run pre)

/-! ### Fixtures for concrete witnesses -/

/-- A fully-resolved plan used as a base for concrete witnesses. -/
def baseSettings : RuntimeSettings :=
  { project_dir := "/proj"
  , dockerfile := "/home/u/.config/davy/rocky.Dockerfile"
  , context_dir := "/home/u/.config/davy"
  , image := "davy-sandbox:latest"
  , name := "davy-proj-20261012-101010"
  , host_uid := 1000
  , host_gid := 1000
  , keep := false
  , rebuild := false
  , no_build := false
  , docker_sock := none
  , docker_sock_gid := none
  , expose_ssh := none
  , with_claude_auth := false
  , claude_auth_volume := "davy-claude-auth-1000-v1"
  , extra_docker_args := []
  , extra_env_args := []
  , cmd := [] }

/-- A witness host with `$HOME = /home/u`, cwd `/proj` and a configurable
filesystem. -/
def witHost (fs : String → FsType) : Host :=
  { fs := fs
  , env := fun k => if k = "HOME" then some "/home/u" else none
  , cwd := "/proj"
  , uid := 1000
  , gid := 1000
  , fileGid := fun _ => 999
  , fileName := fun p => if p = "/proj" then some "proj" else none
  , parent := fun p =>
      if p = "/home/u/.config/davy/rocky.Dockerfile" then some "/home/u/.config/davy" else none
  , now := "20261012-101010"
  , userHome := none }

/-! ### C2: build-definition resolution precedence -/

/-- C2: `resolve_dockerfile` follows strict precedence: an explicit path
is returned unconditionally; otherwise with `--local-dockerfile` the cwd
pair `rocky.Dockerfile` then `debian.Dockerfile` is consulted; otherwise
the config-directory pair is consulted in the same sub-order; when neither
candidate of the consulted pair is a file, resolution fails with an error
naming both attempted paths. -/
theorem c2_dockerfile_resolution (h : Host) (cli : Option String) (localFlag : Bool) :
    (∀ p, cli = some p → resolve_dockerfile h cli localFlag = .ok p) ∧
    (cli = none → localFlag = true →
      (h.fs (pjoin h.cwd "rocky.Dockerfile") = .file →
        resolve_dockerfile h cli localFlag = .ok (pjoin h.cwd "rocky.Dockerfile")) ∧
      (h.fs (pjoin h.cwd "rocky.Dockerfile") ≠ .file →
        h.fs (pjoin h.cwd "debian.Dockerfile") = .file →
        resolve_dockerfile h cli localFlag = .ok (pjoin h.cwd "debian.Dockerfile")) ∧
      (h.fs (pjoin h.cwd "rocky.Dockerfile") ≠ .file →
        h.fs (pjoin h.cwd "debian.Dockerfile") ≠ .file →
        resolve_dockerfile h cli localFlag =
          .error ("no Dockerfile found in current directory (looked for " ++
            pjoin h.cwd "rocky.Dockerfile" ++ " and " ++ pjoin h.cwd "debian.Dockerfile" ++ ")"))) ∧
    (∀ home, cli = none → localFlag = false → home_dir h = .ok home →
      (h.fs (pjoin (pjoin home ".config/davy") "rocky.Dockerfile") = .file →
        resolve_dockerfile h cli localFlag =
          .ok (pjoin (pjoin home ".config/davy") "rocky.Dockerfile")) ∧
      (h.fs (pjoin (pjoin home ".config/davy") "rocky.Dockerfile") ≠ .file →
        h.fs (pjoin (pjoin home ".config/davy") "debian.Dockerfile") = .file →
        resolve_dockerfile h cli localFlag =
          .ok (pjoin (pjoin home ".config/davy") "debian.Dockerfile")) ∧
      (h.fs (pjoin (pjoin home ".config/davy") "rocky.Dockerfile") ≠ .file →
        h.fs (pjoin (pjoin home ".config/davy") "debian.Dockerfile") ≠ .file →
        resolve_dockerfile h cli localFlag =
          .error ("no Dockerfile found (looked for " ++
            pjoin (pjoin home ".config/davy") "rocky.Dockerfile" ++ " and " ++
            pjoin (pjoin home ".config/davy") "debian.Dockerfile" ++
            "); use --dockerfile, --local-dockerfile, or DAVY_DOCKERFILE"))) := by
  refine ⟨fun p hp => by subst hp; rfl, fun hc hl => ?_, fun home hc hl hh => ?_⟩ <;>
    subst hc <;> subst hl <;>
    exact ⟨fun h1 => by simp [resolve_dockerfile, *],
           fun h1 h2 => by simp [resolve_dockerfile, *],
           fun h1 h2 => by simp [resolve_dockerfile, *]⟩

/-- C2 (witness): concrete hosts exercising the explicit path, the
config-directory fallback and the empty-pair failure. -/
theorem c2_dockerfile_resolution_witness :
    resolve_dockerfile (witHost fun _ => .missing) (some "/x/Dockerfile") false =
      .ok "/x/Dockerfile" ∧
    resolve_dockerfile
      (witHost fun p => if p = "/home/u/.config/davy/rocky.Dockerfile" then .file else .missing)
      none false = .ok (pjoin (pjoin "/home/u" ".config/davy") "rocky.Dockerfile") ∧
    resolve_dockerfile (witHost fun _ => .missing) none true =
      .error ("no Dockerfile found in current directory (looked for " ++
        pjoin "/proj" "rocky.Dockerfile" ++ " and " ++ pjoin "/proj" "debian.Dockerfile" ++ ")") :=
  ⟨(c2_dockerfile_resolution (witHost fun _ => .missing) (some "/x/Dockerfile") false).1
      "/x/Dockerfile" rfl,
   ((c2_dockerfile_resolution
      (witHost fun p => if p = "/home/u/.config/davy/rocky.Dockerfile" then .file else .missing)
      none false).2.2 "/home/u" rfl rfl rfl).1 (by decide),
   ((c2_dockerfile_resolution (witHost fun _ => .missing) none true).2.1 rfl rfl).2.2
      (by decide) (by decide)⟩

/-! ### C1: build/no-build decision in `maybe_build_image` -/

/-- C1 (counterexample): with both `--rebuild` and `--no-build` set, the
code takes the `no_build` branch first, so no forced pull + no-cache build
is performed: when the image exists nothing is built, and when it is
absent the program hard-fails. This refutes the claim that rebuild takes
precedence over no-build. -/
theorem c1_rebuild_precedence_counterexample :
    maybe_build_image { baseSettings with rebuild := true, no_build := true } true = .ok none ∧
    maybe_build_image { baseSettings with rebuild := true, no_build := true } false =
      .error "image 'davy-sandbox:latest' not found (and --no-build was set)" ∧
    maybe_build_image { baseSettings with rebuild := true, no_build := true } true ≠
      .ok (some ⟨true, true⟩) ∧
    maybe_build_image { baseSettings with rebuild := true, no_build := true } false ≠
      .ok (some ⟨true, true⟩) := by
  refine ⟨rfl, rfl, ?_, ?_⟩ <;> decide

/-- C1 (amended): `--no-build` takes precedence over `--rebuild`: whenever
no-build is set the program never builds and hard-fails exactly when the
image is absent; with rebuild alone a pull + no-cache build is always
performed; with neither flag a plain build is performed exactly when the
image reference does not already exist locally. -/
theorem c1_build_decision (s : RuntimeSettings) (image_exists : Bool) :
    (s.no_build = true →
      maybe_build_image s image_exists =
        (if image_exists then .ok none
         else .error ("image '" ++ s.image ++ "' not found (and --no-build was set)"))) ∧
    (s.no_build = false → s.rebuild = true →
      maybe_build_image s image_exists = .ok (some ⟨true, true⟩)) ∧
    (s.no_build = false → s.rebuild = false →
      maybe_build_image s image_exists =
        (if image_exists then .ok none else .ok (some ⟨false, false⟩))) := by
  refine ⟨fun h => ?_, fun h hr => ?_, fun h hr => ?_⟩ <;>
    cases image_exists <;> simp [maybe_build_image, h, *]

/-- C1 (witness): the amended decision rule evaluated on concrete plans. -/
theorem c1_build_decision_witness :
    maybe_build_image { baseSettings with rebuild := true } true = .ok (some ⟨true, true⟩) ∧
    maybe_build_image { baseSettings with no_build := true } false =
      (if false then .ok none
       else .error ("image '" ++ baseSettings.image ++ "' not found (and --no-build was set)")) ∧
    maybe_build_image baseSettings false = (if false then .ok none else .ok (some ⟨false, false⟩)) :=
  ⟨(c1_build_decision { baseSettings with rebuild := true } true).2.1 rfl rfl,
   (c1_build_decision { baseSettings with no_build := true } false).1 rfl,
   (c1_build_decision baseSettings false).2.2 rfl rfl⟩

/-! ### C4: bootstrap wrapping order -/

/-- C4: with both SSH exposure and Claude credential mounting enabled the
final vector is the SSH bootstrap wrapping of the credential-symlink
wrapping of the user's command (so the SSH prelude text comes first), and
wrapping a command with a script yields exactly
`["bash", "-lc", script, "--"] ++ cmd`. -/
theorem c4_wrap_order :
    (∀ (port : Nat) (cmd : List String), cmd ≠ [] →
      final_cmd true (some port) cmd =
        wrap_bash_script SSH_BOOTSTRAP_SCRIPT (wrap_bash_script CLAUDE_LINK_SCRIPT cmd)) ∧
    (∀ (script : String) (cmd : List String),
      wrap_bash_script script cmd = ["bash", "-lc", script, "--"] ++ cmd) ∧
    wrap_bash_script "echo hi" ["bash"] = ["bash", "-lc", "echo hi", "--", "bash"] := by
  refine ⟨fun port cmd h => ?_, fun script cmd => rfl, rfl⟩
  cases cmd with
  | nil => exact absurd rfl h
  | cons a t => simp [final_cmd, wrap_bash_script]

/-- C4 (witness): the wrapping order on the concrete command `["bash"]`. -/
theorem c4_wrap_order_witness :
    final_cmd true (some 222) ["bash"] =
      wrap_bash_script SSH_BOOTSTRAP_SCRIPT (wrap_bash_script CLAUDE_LINK_SCRIPT ["bash"]) :=
  c4_wrap_order.1 222 ["bash"] (by decide)

/-! ### C5: an existing non-directory mount source always hard-fails -/

/-- C5: whenever a mount's host source exists but is not a directory,
`add_bind_mount` fails with the validation error, regardless of the
`allow_missing` (requiredness) flag. -/
theorem c5_nondir_source_fails (fs : String → FsType) (args : List String)
    (source target label : String) (allow_missing : Bool)
    (hex : fs source ≠ .missing) (hnd : fs source ≠ .dir) :
    add_bind_mount fs args source target label allow_missing =
      .error (label ++ " mount source is not a directory: " ++ source) := by
  cases h : fs source with
  | dir => exact absurd h hnd
  | missing => exact absurd h hex
  | sock => simp [add_bind_mount, h]
  | file => simp [add_bind_mount, h]

/-- C5 (witness): a regular-file source fails even for the always-optional
skills mount (`allow_missing = true`). -/
theorem c5_nondir_source_fails_witness :
    add_bind_mount (fun _ => .file) [] "/home/u/.agents/skills" "/home/dev/.agents/skills"
      "agents skills" true =
      .error ("agents skills" ++ " mount source is not a directory: " ++ "/home/u/.agents/skills") :=
  c5_nondir_source_fails (fun _ => .file) [] "/home/u/.agents/skills" "/home/dev/.agents/skills"
    "agents skills" true (by decide) (by decide)

/-! ### C10: docker-socket resolution and validation -/

/-- C10: every resolved socket path — including an explicit override — is
validated to exist and be a unix domain socket (a successful resolution
implies the path stats as a socket, and a non-socket override fails); a
`DOCKER_HOST` candidate is accepted only with a `unix://` scheme and a
non-empty remainder; and a non-unix `DOCKER_HOST` without an override is a
fatal error. -/
theorem c10_socket_validation (h : Host) (cli : Option String) :
    (∀ p, resolve_docker_socket_path h cli = .ok p → h.fs p = .sock) ∧
    (∀ p, cli = some p → h.fs p ≠ .sock →
      ∃ e, resolve_docker_socket_path h cli = .error e) ∧
    (∀ dh p, parse_unix_socket_from_docker_host dh = some p →
      dh.toList = "unix://".toList ++ p.toList ∧ p ≠ "") ∧
    (cli = none → ∀ dh, h.env "DOCKER_HOST" = some dh →
      parse_unix_socket_from_docker_host dh = none →
      resolve_docker_socket_path h cli =
        .error ("DOCKER_HOST is set to '" ++ dh ++
          "', but --docker needs a local unix socket. Set --docker-sock or DAVY_DOCKER_SOCK.")) ∧
    parse_unix_socket_from_docker_host "unix:///run/user/1000/docker.sock" =
      some "/run/user/1000/docker.sock" ∧
    parse_unix_socket_from_docker_host "tcp://127.0.0.1:2375" = none := by
  refine ⟨fun p hp => ?_, fun p hp hns => ?_, fun dh p hp => ?_,
    fun hc dh hdh hparse => ?_, by decide, by decide⟩
  · unfold resolve_docker_socket_path at hp
    cases hc : docker_socket_candidate h cli with
    | error e => rw [hc] at hp; simp at hp
    | ok socket =>
      rw [hc] at hp
      cases hfs : h.fs socket with
      | missing => simp [hfs] at hp
      | sock => simp [hfs] at hp; rw [← hp]; exact hfs
      | dir => simp [hfs] at hp
      | file => simp [hfs] at hp
  · subst hp
    cases hfs : h.fs p with
    | sock => exact absurd hfs hns
    | missing =>
      exact ⟨"docker socket not found: " ++ p,
        by simp [resolve_docker_socket_path, docker_socket_candidate, hfs]⟩
    | dir =>
      exact ⟨"docker socket path is not a unix socket: " ++ p,
        by simp [resolve_docker_socket_path, docker_socket_candidate, hfs]⟩
    | file =>
      exact ⟨"docker socket path is not a unix socket: " ++ p,
        by simp [resolve_docker_socket_path, docker_socket_candidate, hfs]⟩
  · unfold parse_unix_socket_from_docker_host at hp
    by_cases hpre : "unix://".toList.isPrefixOf dh.toList
    · rw [if_pos hpre] at hp
      by_cases hemp : (String.mk (dh.toList.drop 7)).isEmpty
      · rw [if_pos hemp] at hp; exact absurd hp (by simp)
      · rw [if_neg hemp] at hp
        have hp' : String.mk (dh.toList.drop 7) = p := by simpa using hp
        obtain ⟨t, ht⟩ := List.isPrefixOf_iff_prefix.mp hpre
        have hlen : ("unix://".toList).length = 7 := rfl
        have hdrop : dh.toList.drop 7 = t := by rw [← ht, ← hlen, List.drop_left]
        refine ⟨?_, ?_⟩
        · rw [← hp']
          have hmk : (String.mk (dh.toList.drop 7)).toList = dh.toList.drop 7 := rfl
          rw [hmk, hdrop]
          exact ht.symm
        · intro hpe
          apply hemp
          rw [hp', hpe]
          rfl
    · rw [if_neg hpre] at hp; exact absurd hp (by simp)
  · subst hc
    unfold resolve_docker_socket_path docker_socket_candidate
    simp [hdh, hparse]

/-- C10 (witness): the default path accepted only as a socket, a
non-socket override rejected, and a non-unix `DOCKER_HOST` rejected. -/
theorem c10_socket_validation_witness :
    (witHost fun p => if p = "/var/run/docker.sock" then .sock else .missing).fs
      "/var/run/docker.sock" = .sock ∧
    (∃ e, resolve_docker_socket_path (witHost fun _ => .file) (some "/tmp/not-a-socket") =
      .error e) ∧
    resolve_docker_socket_path
      { witHost (fun _ => .missing) with
          env := fun k => if k = "DOCKER_HOST" then some "tcp://127.0.0.1:2375" else none }
      none =
      .error ("DOCKER_HOST is set to '" ++ "tcp://127.0.0.1:2375" ++
        "', but --docker needs a local unix socket. Set --docker-sock or DAVY_DOCKER_SOCK.") :=
  ⟨(c10_socket_validation
      (witHost fun p => if p = "/var/run/docker.sock" then .sock else .missing) none).1
      "/var/run/docker.sock" (by decide),
   (c10_socket_validation (witHost fun _ => .file) (some "/tmp/not-a-socket")).2.1
      "/tmp/not-a-socket" rfl (by decide),
   (c10_socket_validation
      { witHost (fun _ => .missing) with
          env := fun k => if k = "DOCKER_HOST" then some "tcp://127.0.0.1:2375" else none }
      none).2.2.2.1 rfl "tcp://127.0.0.1:2375" (by decide) (by decide)⟩

/-! ### C7: fixed order of the `docker run` invocation -/

/-- C7: the `docker run` argument vector is exactly: interactive+tty mode,
optional auto-remove, container name, project bind-mount at `/project`
set as working directory, optional credential-volume mount, optional
docker-socket bind-mount plus supplementary group when a gid is resolved,
optional SSH port publish, environment directives, pass-through flags,
image reference, and final command vector, in that order. -/
theorem c7_run_argv_order (s : RuntimeSettings) :
    docker_run_argv s =
      ["docker", "run", "-it"]
      ++ (if s.keep then [] else ["--rm"])
      ++ ["--name", s.name, "-v", s.project_dir ++ ":/project", "-w", "/project"]
      ++ (if s.with_claude_auth then
            ["--mount", "type=volume,src=" ++ s.claude_auth_volume ++ ",dst=/home/dev/.claude-auth"]
          else [])
      ++ (match s.docker_sock with
          | some sock =>
            ["-v", sock ++ ":/var/run/docker.sock"]
            ++ (match s.docker_sock_gid with
                | some gid => ["--group-add", toString gid]
                | none => [])
          | none => [])
      ++ (match s.expose_ssh with
          | some port => ["-p", toString port ++ ":22"]
          | none => [])
      ++ s.extra_env_args ++ s.extra_docker_args ++ [s.image] ++ s.cmd := by
  obtain ⟨pd, df, cd, im, nm, uid, gid, keep, rb, nb, ds, dsg, es, wca, cav, eda, eea, cmd⟩ := s
  cases keep <;> cases wca <;> cases ds <;> cases dsg <;> cases es <;>
    simp [docker_run_argv, arg, argList]

/-! ### C8: exit-status propagation -/

/-- C8: a normal child exit code is propagated exactly as the process exit
code; any internally detected failure yields exit code 1; termination by
signal is surfaced as an internal error (exit code 1) and never as a
substituted numeric child exit code. -/
theorem c8_exit_propagation :
    (∀ c : Int, program_exit (.ok (.exited c)) = c) ∧
    (∀ e : String, program_exit (.error e) = 1) ∧
    program_exit (.ok .signalled) = 1 ∧
    finish_run (.ok .signalled) = .error "docker run terminated by signal" := by
  refine ⟨fun c => ?_, fun e => rfl, rfl, rfl⟩
  by_cases h : c = 0 <;>
    simp [program_exit, finish_run, status_success, status_code, main_exit_code, h]

/-! ### C3: SSH key aggregation -/

/-- Unfolding of `foldDedup` on a cons cell. -/
theorem foldDedup_cons (a : String) (t acc : List String) :
    foldDedup (a :: t) acc = foldDedup t (if a ∈ acc then acc else acc ++ [a]) := rfl

/-- The paired unique-set/output fold of the aggregator computes the
first-seen deduplication onto the output, provided the unique set and the
output hold the same elements; the invariant is preserved. -/
theorem insert_fold (l : List String) : ∀ u o : List String, (∀ x, x ∈ u ↔ x ∈ o) →
    (l.foldl insertStep (u, o)).2 = foldDedup l o ∧
    (∀ x, x ∈ (l.foldl insertStep (u, o)).1 ↔ x ∈ (l.foldl insertStep (u, o)).2) := by
  induction l with
  | nil => exact fun u o hinv => ⟨rfl, hinv⟩
  | cons a t ih =>
    intro u o hinv
    by_cases ha : a ∈ u
    · have ha' : a ∈ o := (hinv a).mp ha
      have := ih u o hinv
      simpa [insertStep, foldDedup_cons, ha, ha'] using this
    · have ha' : a ∉ o := fun hmem => ha ((hinv a).mpr hmem)
      have hinv' : ∀ x, x ∈ a :: u ↔ x ∈ o ++ [a] := by
        intro x
        simp [List.mem_cons, List.mem_append, hinv x, or_comm]
      have := ih (a :: u) (o ++ [a]) hinv'
      simpa [insertStep, foldDedup_cons, ha, ha'] using this

/-- The whole-source fold of `collect_ssh_authorized_keys` produces the
first-seen deduplication of all trimmed non-empty lines in reading
order. -/
theorem collect_sources_eq (sources : List (List String)) :
    ∀ u o : List String, (∀ x, x ∈ u ↔ x ∈ o) →
    (sources.foldl (fun st content => collect_key_lines_from_file content st.1 st.2) (u, o)).2
      = foldDedup (keyLines sources) o ∧
    (∀ x,
      x ∈ (sources.foldl (fun st content =>
        collect_key_lines_from_file content st.1 st.2) (u, o)).1 ↔
      x ∈ (sources.foldl (fun st content =>
        collect_key_lines_from_file content st.1 st.2) (u, o)).2) := by
  induction sources with
  | nil => exact fun u o hinv => ⟨rfl, hinv⟩
  | cons c rest ih =>
    intro u o hinv
    have h1 := insert_fold ((c.map trim).filter (fun l => !l.isEmpty)) u o hinv
    have hstep : collect_key_lines_from_file c (u, o).1 (u, o).2
        = ((c.map trim).filter (fun l => !l.isEmpty)).foldl insertStep (u, o) := rfl
    have hkey : keyLines (c :: rest) = ((c.map trim).filter (fun l => !l.isEmpty)) ++ keyLines rest := by
      simp [keyLines]
    have happ : ∀ q o', foldDedup (((c.map trim).filter (fun l => !l.isEmpty)) ++ q) o'
        = foldDedup q (foldDedup ((c.map trim).filter (fun l => !l.isEmpty)) o') := by
      intro q o'
      simp [foldDedup, List.foldl_append]
    have ih' := ih (((c.map trim).filter (fun l => !l.isEmpty)).foldl insertStep (u, o)).1
      (((c.map trim).filter (fun l => !l.isEmpty)).foldl insertStep (u, o)).2 h1.2
    simp only [Prod.mk.eta] at ih'
    constructor
    · rw [List.foldl_cons, hstep, hkey, happ, ← h1.1]
      exact ih'.1
    · rw [List.foldl_cons, hstep]
      exact ih'.2

/-- The fold `foldDedup` preserves freedom from duplicates. -/
theorem foldDedup_nodup (l : List String) : ∀ acc, acc.Nodup → (foldDedup l acc).Nodup := by
  induction l with
  | nil => exact fun acc h => h
  | cons a t ih =>
    intro acc h
    by_cases ha : a ∈ acc
    · simpa [foldDedup_cons, ha] using ih acc h
    · have hacc : (acc ++ [a]).Nodup := by
        simp [List.nodup_append, h, ha]
      simpa [foldDedup_cons, ha] using ih (acc ++ [a]) hacc

/-- Membership in `foldDedup`. -/
theorem foldDedup_mem (l : List String) : ∀ acc x, x ∈ foldDedup l acc ↔ x ∈ acc ∨ x ∈ l := by
  induction l with
  | nil => intro acc x; simp [foldDedup]
  | cons a t ih =>
    intro acc x
    by_cases ha : a ∈ acc
    · rw [foldDedup_cons, if_pos ha, ih]
      constructor
      · rintro (hx | hx)
        exacts [Or.inl hx, Or.inr (List.mem_cons_of_mem a hx)]
      · rintro (hx | hx)
        · exact Or.inl hx
        · rcases List.mem_cons.mp hx with hx | hx
          exacts [Or.inl (hx ▸ ha), Or.inr hx]
    · rw [foldDedup_cons, if_neg ha, ih]
      simp [List.mem_append, or_assoc]

/-- C3: the aggregator's output is the newline-join of the first-seen
deduplication of all trimmed non-empty lines across the sources in
reading order, with exactly one trailing newline; the deduplicated list
has no duplicates and exactly the lines that occur; and the aggregation
fails precisely when no trimmed non-empty line exists. -/
theorem c3_key_aggregation (sources : List (List String)) :
    collect_ssh_authorized_keys sources =
      (if dedupFirstSeen (keyLines sources) = [] then
        .error "no SSH public keys found. Add ~/.ssh/*.pub or set DAVY_SSH_AUTHORIZED_KEYS_FILE"
       else .ok (String.intercalate "\n" (dedupFirstSeen (keyLines sources)) ++ "\n")) ∧
    (dedupFirstSeen (keyLines sources)).Nodup ∧
    (∀ x, x ∈ dedupFirstSeen (keyLines sources) ↔ x ∈ keyLines sources) ∧
    (dedupFirstSeen (keyLines sources) = [] ↔ keyLines sources = []) := by
  have hmain := (collect_sources_eq sources [] [] (by simp)).1
  have hmem : ∀ x, x ∈ dedupFirstSeen (keyLines sources) ↔ x ∈ keyLines sources := by
    intro x
    rw [dedupFirstSeen, foldDedup_mem]
    simp
  refine ⟨?_, foldDedup_nodup _ [] (by simp), hmem, ?_⟩
  · simp only [collect_ssh_authorized_keys]
    rw [hmain]
    rw [show foldDedup (keyLines sources) [] = dedupFirstSeen (keyLines sources) from rfl]
    by_cases hd : dedupFirstSeen (keyLines sources) = [] <;> simp [hd]
  · constructor
    · intro hd
      refine List.eq_nil_iff_forall_not_mem.mpr fun x hx => ?_
      have := (hmem x).mpr hx
      rw [hd] at this
      exact absurd this (List.not_mem_nil x)
    · intro hk
      rw [hk]
      rfl

/-! ### C9: forwarded-but-unset environment keys become `KEY=` -/

/-- The env-directive fold is a flat list of `-e VALUE` pairs. -/
theorem foldl_push_env_map (f : String → String) (l : List String) : ∀ acc : List String,
    l.foldl (fun acc key => push_env acc (f key)) acc
      = acc ++ l.flatMap (fun key => ["-e", f key]) := by
  induction l with
  | nil => intro acc; simp
  | cons a t ih =>
    intro acc
    rw [List.foldl_cons, ih]
    simp [push_env, List.append_assoc]

/-- Closed form of `build_env_args`: explicit entries first, then the
forwarded keys each bound to its host value or the empty string. -/
theorem build_env_args_eq (env : String → Option String) (extra pass : List String) :
    build_env_args env extra pass
      = extra.flatMap (fun kv => ["-e", kv])
        ++ pass.flatMap (fun key => ["-e", key ++ "=" ++ (env key).getD ""]) := by
  have h1 : extra.foldl (fun acc kv => push_env acc kv) ([] : List String)
      = [] ++ extra.flatMap (fun kv => ["-e", kv]) :=
    foldl_push_env_map (fun kv => kv) extra []
  have h2 := foldl_push_env_map (fun key => key ++ "=" ++ (env key).getD "") pass
    (extra.foldl (fun acc kv => push_env acc kv) [])
  simp only [build_env_args]
  rw [h2, h1]
  simp

/-- Any forwarded key contributes its `-e KEY=VALUE` pair to the built
environment directives. -/
theorem build_env_args_pass_mem (env : String → Option String) (extra pass : List String)
    (key : String) (hk : key ∈ pass) :
    ∃ u v, build_env_args env extra pass
      = u ++ ["-e", key ++ "=" ++ (env key).getD ""] ++ v := by
  obtain ⟨s, t, rfl⟩ := List.append_of_mem hk
  rw [build_env_args_eq]
  exact ⟨extra.flatMap (fun kv => ["-e", kv])
      ++ s.flatMap (fun k => ["-e", k ++ "=" ++ (env k).getD ""]),
    t.flatMap (fun k => ["-e", k ++ "=" ++ (env k).getD ""]),
    by simp [List.append_assoc]⟩

/-- In any successfully built plan, the environment directives are the
`build_env_args` list, possibly followed by the single `CODEX_HOME`
directive added when the Codex mount was applied. -/
theorem build_extra_env_args_shape (h : Host) (args : RunArgs) (r : RuntimeSettings × List String)
    (hb : build_runtime_settings h args = .ok r) :
    r.1.extra_env_args = build_env_args h.env args.extra_env args.pass_env ∨
    r.1.extra_env_args = push_env (build_env_args h.env args.extra_env args.pass_env)
      "CODEX_HOME=/home/dev/.codex" := by
  simp only [build_runtime_settings] at hb
  repeat' split at hb
  all_goals first
    | exact Except.noConfusion hb
    | (injection hb with hb2; subst hb2; first | (left; rfl) | (right; rfl))

/-- C9: for every key listed with `--pass-env` that is unset on the host,
the built plan still contains an environment directive binding the key to
the empty string (`-e KEY=`). -/
theorem c9_pass_env_empty_binding (h : Host) (args : RunArgs) (r : RuntimeSettings × List String)
    (key : String) (hb : build_runtime_settings h args = .ok r)
    (hk : key ∈ args.pass_env) (he : h.env key = none) :
    ∃ u v, r.1.extra_env_args = u ++ ["-e", key ++ "="] ++ v := by
  obtain ⟨u, v, huv⟩ := build_env_args_pass_mem h.env args.extra_env args.pass_env key hk
  rw [he] at huv
  have hval : key ++ "=" ++ (none : Option String).getD "" = key ++ "=" := by simp
  rw [hval] at huv
  rcases build_extra_env_args_shape h args r hb with hshape | hshape
  · exact ⟨u, v, by rw [hshape, huv]⟩
  · refine ⟨u, v ++ ["-e", "CODEX_HOME=/home/dev/.codex"], ?_⟩
    rw [hshape, push_env, huv]
    simp [List.append_assoc]

/-- Host fixture for successful plan construction: a project directory and
a config-directory Dockerfile exist; everything else is absent. -/
def planHost : Host := witHost fun p =>
  if p = "/proj" then .dir
  else if p = "/home/u/.config/davy/rocky.Dockerfile" then .file
  else .missing

/-- Launch request forwarding the unset host variable `FOO`. -/
def c9Args : RunArgs :=
  { project_dir := some "/proj"
  , name := some "n"
  , with_docker_sock := false
  , docker_sock := none
  , rebuild := false
  , no_build := false
  , keep := false
  , expose_ssh := none
  , extra_env := []
  , pass_env := ["FOO"]
  , with_pi_auth := false
  , with_codex_auth := false
  , with_gemini_auth := false
  , with_claude_auth := false
  , auth_all := false
  , image := "davy-sandbox:latest"
  , dockerfile := none
  , local_dockerfile := false
  , extra_docker_args := []
  , cmd := [] }

/-- The plan built from `planHost`/`c9Args`. -/
def c9Result : RuntimeSettings × List String :=
  ({ project_dir := "/proj"
   , dockerfile := "/home/u/.config/davy/rocky.Dockerfile"
   , context_dir := "/home/u/.config/davy"
   , image := "davy-sandbox:latest"
   , name := "n"
   , host_uid := 1000
   , host_gid := 1000
   , keep := false
   , rebuild := false
   , no_build := false
   , docker_sock := none
   , docker_sock_gid := none
   , expose_ssh := none
   , with_claude_auth := false
   , claude_auth_volume := "davy-claude-auth-1000-v1"
   , extra_docker_args := []
   , extra_env_args := ["-e", "FOO="]
   , cmd := [] },
   [ "davy: warning: agents skills mount source not found at /home/u/.agents/skills; skipping."
   , "davy: warning: continuing without host skills mount." ])

/-- C9 (witness): forwarding the unset key `FOO` on a concrete host adds
`-e FOO=` to the built plan. -/
theorem c9_pass_env_empty_binding_witness :
    ∃ u v, c9Result.1.extra_env_args = u ++ ["-e", "FOO" ++ "="] ++ v :=
  c9_pass_env_empty_binding planHost c9Args c9Result "FOO" (by decide) (by decide) (by decide)

/-! ### C6: individual auth flags hard-fail, `--auth-all` warn-and-skips -/

/-- C6: for each of the Pi, Codex and Gemini auth mounts, enabling the
mount by its individual flag alone makes a missing host source a hard
failure, while enabling it via `--auth-all` downgrades a missing source to
warn-and-skip: planning succeeds, no mount directive is appended, and the
per-mount warning is emitted. -/
theorem c6_auth_requiredness (h : Host) (args : RunArgs) (home pd df : String)
    (hpd : pd = args.project_dir.getD h.cwd)
    (hdir : h.fs pd = .dir)
    (hdf : resolve_dockerfile h args.dockerfile args.local_dockerfile = .ok df)
    (hfile : h.fs df = .file)
    (hh : home_dir h = .ok home) :
    (args.with_pi_auth = true → args.auth_all = false →
      h.fs (pjoin home ".pi/agent") = .missing →
      build_runtime_settings h args =
        .error ("Pi auth mount source not found: " ++ pjoin home ".pi/agent")) ∧
    (args.with_pi_auth = false → args.with_codex_auth = true → args.auth_all = false →
      h.fs (pjoin home ".codex") = .missing →
      build_runtime_settings h args =
        .error ("Codex auth mount source not found: " ++ pjoin home ".codex")) ∧
    (args.with_pi_auth = false → args.with_codex_auth = false → args.with_gemini_auth = true →
      args.auth_all = false →
      h.fs (pjoin home ".gemini") = .missing →
      build_runtime_settings h args =
        .error ("Gemini auth mount source not found: " ++ pjoin home ".gemini")) ∧
    (args.auth_all = true → args.with_docker_sock = false →
      h.fs (pjoin home ".pi/agent") = .missing →
      h.fs (pjoin home ".codex") = .missing →
      h.fs (pjoin home ".gemini") = .missing →
      h.fs (pjoin home ".agents/skills") = .missing →
      build_runtime_settings h args =
        .ok ({ project_dir := pd
             , dockerfile := df
             , context_dir := (h.parent df).getD "."
             , image := args.image
             , name := args.name.getD (default_container_name h pd)
             , host_uid := h.uid
             , host_gid := h.gid
             , keep := args.keep
             , rebuild := args.rebuild
             , no_build := args.no_build
             , docker_sock := none
             , docker_sock_gid := none
             , expose_ssh := args.expose_ssh
             , with_claude_auth := true
             , claude_auth_volume := (h.env "DAVY_CLAUDE_AUTH_VOLUME").getD
                 ("davy-claude-auth-" ++ toString h.uid ++ "-v1")
             , extra_docker_args := args.extra_docker_args
             , extra_env_args := build_env_args h.env args.extra_env args.pass_env
             , cmd := args.cmd },
             [ "davy: warning: Pi auth mount source not found at "
                 ++ pjoin home ".pi/agent" ++ "; skipping."
             , "davy: warning: Codex auth mount source not found at "
                 ++ pjoin home ".codex" ++ "; skipping."
             , "davy: warning: Gemini auth mount source not found at "
                 ++ pjoin home ".gemini" ++ "; skipping."
             , "davy: warning: agents skills mount source not found at "
                 ++ pjoin home ".agents/skills" ++ "; skipping."
             , "davy: warning: continuing without host skills mount." ])) := by
  subst hpd
  refine ⟨fun hpi hall hfs => ?_, fun hpi hcdx hall hfs => ?_,
    fun hpi hcdx hgem hall hfs => ?_, fun hall hds hf1 hf2 hf3 hf4 => ?_⟩ <;>
    simp [build_runtime_settings, add_bind_mount, docker_sock_gid, hdir, hdf, hfile, hh, *]

/-- C6 (witness): on a concrete host with every auth source absent,
`--auth-pi` alone fails hard while `--auth-all` succeeds with warnings and
no auth mount directives. -/
theorem c6_auth_requiredness_witness :
    build_runtime_settings planHost { c9Args with pass_env := [], with_pi_auth := true } =
      .error ("Pi auth mount source not found: " ++ pjoin "/home/u" ".pi/agent") ∧
    build_runtime_settings planHost { c9Args with pass_env := [], auth_all := true } =
      .ok ({ project_dir := "/proj"
           , dockerfile := "/home/u/.config/davy/rocky.Dockerfile"
           , context_dir := (planHost.parent "/home/u/.config/davy/rocky.Dockerfile").getD "."
           , image := "davy-sandbox:latest"
           , name := "n"
           , host_uid := 1000
           , host_gid := 1000
           , keep := false
           , rebuild := false
           , no_build := false
           , docker_sock := none
           , docker_sock_gid := none
           , expose_ssh := none
           , with_claude_auth := true
           , claude_auth_volume := (planHost.env "DAVY_CLAUDE_AUTH_VOLUME").getD
               ("davy-claude-auth-" ++ toString 1000 ++ "-v1")
           , extra_docker_args := []
           , extra_env_args := build_env_args planHost.env [] []
           , cmd := [] },
           [ "davy: warning: Pi auth mount source not found at "
               ++ pjoin "/home/u" ".pi/agent" ++ "; skipping."
           , "davy: warning: Codex auth mount source not found at "
               ++ pjoin "/home/u" ".codex" ++ "; skipping."
           , "davy: warning: Gemini auth mount source not found at "
               ++ pjoin "/home/u" ".gemini" ++ "; skipping."
           , "davy: warning: agents skills mount source not found at "
               ++ pjoin "/home/u" ".agents/skills" ++ "; skipping."
           , "davy: warning: continuing without host skills mount." ]) :=
  ⟨(c6_auth_requiredness planHost { c9Args with pass_env := [], with_pi_auth := true }
      "/home/u" "/proj" "/home/u/.config/davy/rocky.Dockerfile"
      rfl (by decide) (by decide) (by decide) (by decide)).1 rfl rfl (by decide),
   (c6_auth_requiredness planHost { c9Args with pass_env := [], auth_all := true }
      "/home/u" "/proj" "/home/u/.config/davy/rocky.Dockerfile"
      rfl (by decide) (by decide) (by decide) (by decide)).2.2.2 rfl rfl
      (by decide) (by decide) (by decide) (by decide)⟩

end Davy
